import Mathlib

/-!
Shallow embedding of the core logic of a batch ETL pipeline that pulls chess
games from the Chess.com API and builds a small star schema.  The embedded
code lives in src/airflow/dags/utils/python_scripts.py; the pure fragments of
its Python and DuckDB SQL are translated into executable Lean definitions, and
theorems about those definitions follow the definitions.  User defined
functions registered in utils/udfs.py are not among the source files; each of
those is modelled from the specification and marked as such in its doc comment.
-/

/-- Calendar date as produced by DuckDB STRPTIME with format %Y/%m/%d
(python_scripts.py lines 181 and 191). -/
structure YMD where
  y : Nat
  m : Nat
  d : Nat
deriving DecidableEq

/-- Days since 0000-03-01 in the proleptic Gregorian calendar (valid for
years ≥ 1).  This places calendar dates on the absolute timeline, which is
what pandas `to_datetime` does when `transform_json_to_fact_table` rebuilds
the start and end timestamps (lines 198-205). -/
def daysFromCivil (dt : YMD) : Nat :=
  let y := if dt.m ≤ 2 then dt.y - 1 else dt.y
  let era := y / 400
  let yoe := y % 400
  let mp := (dt.m + 9) % 12
  let doy := (153 * mp + 2) / 5 + dt.d - 1
  let doe := yoe * 365 + yoe / 4 - yoe / 100 + doy
  era * 146097 + doe

/-- English month name, as DuckDB strftime('%B', d) (load_dim_date). -/
def monthName (m : Nat) : String :=
  ["January", "February", "March", "April", "May", "June", "July",
   "August", "September", "October", "November", "December"].getD (m - 1) ""

/-- English weekday name, as DuckDB strftime('%A', d) (load_dim_date).
Day 0 of `daysFromCivil` (0000-03-01) was a Wednesday. -/
def weekdayName (dt : YMD) : String :=
  ["Wednesday", "Thursday", "Friday", "Saturday", "Sunday", "Monday",
   "Tuesday"].getD (daysFromCivil dt % 7) ""

/-- The CASE expression computing the quarter in `load_dim_date`
(lines 334-338). -/
def quarterOf (m : Nat) : Nat :=
  if 1 ≤ m ∧ m ≤ 3 then 1
  else if 4 ≤ m ∧ m ≤ 6 then 2
  else if 7 ≤ m ∧ m ≤ 9 then 3
  else 4

/-- Seconds since midnight for a time-of-day value (STRPTIME %H:%M:%S). -/
def todSecs (h m s : Nat) : Nat :=
  h * 3600 + m * 60 + s

/-- Absolute timestamp, in seconds, built by concatenating a date and a
time-of-day string and parsing the result, as the pandas `to_datetime`
calls do in `transform_json_to_fact_table` (lines 198-205): each timestamp
is reconstructed from its own date and time pair. -/
def combineDateTime (dt : YMD) (tod : Nat) : Nat :=
  daysFromCivil dt * 86400 + tod

/-- DuckDB date_diff('seconds', ts1, ts2) for whole-second timestamps
(load_fact_table line 539). -/
def dateDiffSeconds (ts1 ts2 : Nat) : Int :=
  (ts2 : Int) - (ts1 : Int)

/-- The game_duration_secs column of the fact table: the start timestamp is
rebuilt from (game_date, start time-of-day) and the end timestamp from
(end_game_date, end time-of-day), then their difference in seconds is
taken (lines 198-205 and 539). -/
def gameDurationSecs (game_date end_game_date : YMD) (start_tod end_tod : Nat) : Int :=
  dateDiffSeconds (combineDateTime game_date start_tod)
    (combineDateTime end_game_date end_tod)

/-- The response of the Chess.com games endpoint, as consumed by
`extract_and_load_chess_data`: a status code and, for a 200 response, the
list under the "games" key (raw game records kept opaque). -/
structure ChessApiResponse where
  status_code : Nat
  games : List String
deriving DecidableEq

/-- Observable outcome of one `extract_and_load_chess_data` run: the bronze
blob name, the payload written to it (`none` would mean nothing written),
and the Python return value. -/
structure ExtractOutcome where
  blob_name : String
  bronze_payload : Option (List String)
  ret : Bool
deriving DecidableEq

/-- Two-digit zero padding, as the Python format `{int(month):02}`. -/
def pad2 (n : Nat) : String :=
  if n < 10 then "0" ++ toString n else toString n

/-- `extract_and_load_chess_data` (lines 30-79).  On a 200 response the
"games" list is pulled; on any other status the pulled data is set to the
empty list (lines 59-61).  Either way the pulled data is uploaded to
`bronze/{year}-{month:02}-games.json` with overwrite=True and the function
returns True (lines 63-79).  The username only feeds the request URL. -/
def extract_and_load_chess_data (username : String) (year month : Nat)
    (response : ChessApiResponse) : ExtractOutcome :=
  let pulled_data := if response.status_code = 200 then response.games else []
  { blob_name := "bronze/" ++ toString year ++ "-" ++ pad2 month ++ "-games.json"
    bronze_payload := some pulled_data
    ret := true }

/-- A PGN notation blob, as a character list. -/
abbrev Blob := List Char

/-- Whether the first list is a prefix of the second. -/
def listStartsWith : List Char → List Char → Bool
  | [], _ => true
  | _ :: _, [] => false
  | p :: ps, c :: cs => p == c && listStartsWith ps cs

/-- Whether `pat` occurs as a contiguous sublist of `s`. -/
def containsSub (pat : List Char) : List Char → Bool
  | [] => listStartsWith pat []
  | c :: rest => listStartsWith pat (c :: rest) || containsSub pat rest

/-- The lazy capture `(.*?)"` of the tag regexes: the characters before the
next double quote; `none` when the line ends (the regex `.` does not match a
newline) or the input ends before a closing quote. -/
def captureUpToQuote : List Char → Option (List Char)
  | [] => none
  | c :: rest =>
    if c = '"' then some []
    else if c = '\n' then none
    else (captureUpToQuote rest).map (fun t => c :: t)

/-- DuckDB REGEXP_EXTRACT(s, pat ++ '(.*?)"', 1): the first position where
the literal prefix `pat` matches and a closing quote follows on the same
line yields the capture; with no such position the empty string is returned
(DuckDB's regexp_extract returns the empty string on no match). -/
def regexpExtractFirst (pat : List Char) : List Char → List Char
  | [] => []
  | c :: rest =>
    if listStartsWith pat (c :: rest) then
      match captureUpToQuote ((c :: rest).drop pat.length) with
      | some cap => cap
      | none => regexpExtractFirst pat rest
    else regexpExtractFirst pat rest

/-- The literal part of the tag regex `\[Key "(.*?)"`. -/
def tagPattern (key : String) : List Char :=
  '[' :: (key.data ++ [' ', '"'])

/-- Extraction of one bracket-tagged metadata field from a notation blob, as
the REGEXP_EXTRACT calls of `transform_json_to_fact_table` (lines 179-191). -/
def extractTag (key : String) (pgn : Blob) : List Char :=
  regexpExtractFirst (tagPattern key) pgn

/-- DuckDB REPLACE(s, '.', '/') as applied to the extracted dates. -/
def replaceDots (s : List Char) : List Char :=
  s.map (fun c => if c = '.' then '/' else c)

/-- Numeric value of a digit string. -/
def digitVal (cs : List Char) : Nat :=
  cs.foldl (fun a c => a * 10 + (c.toNat - 48)) 0

/-- DuckDB STRPTIME(s, '%Y/%m/%d')::DATE.  STRPTIME raises on any string it
cannot parse (in particular on the empty string), modelled as `none`. -/
def strptimeYMD (s : List Char) : Option YMD :=
  let ys := s.takeWhile Char.isDigit
  let r1 := s.dropWhile Char.isDigit
  match ys, r1 with
  | [], _ => none
  | _ :: _, '/' :: r2 =>
    let ms := r2.takeWhile Char.isDigit
    let r3 := r2.dropWhile Char.isDigit
    match ms, r3 with
    | [], _ => none
    | _ :: _, '/' :: r4 =>
      let ds := r4.takeWhile Char.isDigit
      let r5 := r4.dropWhile Char.isDigit
      match ds, r5 with
      | [], _ => none
      | _ :: _, [] =>
        let m := digitVal ms
        let d := digitVal ds
        if 1 ≤ m ∧ m ≤ 12 ∧ 1 ≤ d ∧ d ≤ 31 then some ⟨digitVal ys, m, d⟩
        else none
      | _, _ => none
    | _, _ => none
  | _, _ => none

/-- DuckDB STRPTIME(s, '%H:%M:%S')::TIME, as seconds since midnight.
STRPTIME raises on any string it cannot parse (in particular on the empty
string), modelled as `none`. -/
def strptimeHMS (s : List Char) : Option Nat :=
  let hs := s.takeWhile Char.isDigit
  let r1 := s.dropWhile Char.isDigit
  match hs, r1 with
  | [], _ => none
  | _ :: _, ':' :: r2 =>
    let ms := r2.takeWhile Char.isDigit
    let r3 := r2.dropWhile Char.isDigit
    match ms, r3 with
    | [], _ => none
    | _ :: _, ':' :: r4 =>
      let ss := r4.takeWhile Char.isDigit
      let r5 := r4.dropWhile Char.isDigit
      match ss, r5 with
      | [], _ => none
      | _ :: _, [] =>
        let h := digitVal hs
        let m := digitVal ms
        let sec := digitVal ss
        if h ≤ 23 ∧ m ≤ 59 ∧ sec ≤ 59 then some (todSecs h m sec)
        else none
      | _, _ => none
    | _, _ => none
  | _, _ => none

/-- The per-game columns extracted from the notation blob by
`transform_json_to_fact_table` (lines 179-191); the move columns pgn_raw and
pgn_trans are modelled separately through `add_move_numbers`. -/
structure ParsedPGN where
  pgn_event : List Char
  pgn_site : List Char
  pgn_white_user : List Char
  pgn_black_user : List Char
  pgn_result : List Char
  pgn_current_position : List Char
  pgn_timezone : List Char
  pgn_eco : List Char
  pgn_eco_url : List Char
  game_date : YMD
  start_time : Nat
  end_time : Nat
  end_game_date : YMD
deriving DecidableEq

/-- Row-level model of the extraction part of `transform_json_to_fact_table`:
every tag is pulled with REGEXP_EXTRACT (empty on a missing tag), and the
four date/time columns go through STRPTIME, whose failure aborts the whole
query; that abort is the `Except.error` case. -/
def transform_json_to_fact_row (pgn : Blob) : Except String ParsedPGN :=
  match strptimeYMD (replaceDots (extractTag "Date" pgn)) with
  | none => Except.error "Could not parse Date with format %Y/%m/%d"
  | some gd =>
    match strptimeHMS (extractTag "StartTime" pgn) with
    | none => Except.error "Could not parse StartTime with format %H:%M:%S"
    | some st =>
      match strptimeHMS (extractTag "EndTime" pgn) with
      | none => Except.error "Could not parse EndTime with format %H:%M:%S"
      | some et =>
        match strptimeYMD (replaceDots (extractTag "EndDate" pgn)) with
        | none => Except.error "Could not parse EndDate with format %Y/%m/%d"
        | some ed =>
          Except.ok
            { pgn_event := extractTag "Event" pgn
              pgn_site := extractTag "Site" pgn
              pgn_white_user := extractTag "White" pgn
              pgn_black_user := extractTag "Black" pgn
              pgn_result := extractTag "Result" pgn
              pgn_current_position := extractTag "CurrentPosition" pgn
              pgn_timezone := extractTag "Timezone" pgn
              pgn_eco := extractTag "ECO" pgn
              pgn_eco_url := extractTag "ECOUrl" pgn
              game_date := gd
              start_time := st
              end_time := et
              end_game_date := ed }

/-- Helper for `add_move_numbers`: number the token pairs starting at `n`. -/
def addMoveNumbersAux : Nat → List String → String
  | _, [] => ""
  | n, [a] => toString n ++ ". " ++ a
  | n, a :: b :: rest =>
    toString n ++ ". " ++ a ++ " " ++ b ++
      (match rest with
       | [] => ""
       | _ :: _ => " " ++ addMoveNumbersAux (n + 1) rest)

/-- Modelled from the spec: `add_move_numbers` is a user defined function
registered in utils/udfs.py, which is not among the source files; only its
call site (python_scripts.py line 193) is.  Per the spec it takes the
ordered move-token sequence and re-annotates it with explicit move numbers,
assuming tokens alternate white and black starting at move 1, a pure
formatting transform with no state beyond an incrementing counter. -/
def add_move_numbers (tokens : List String) : String :=
  addMoveNumbersAux 1 tokens

/-- Modelled from the spec: `extract_opening_name` lives in utils/udfs.py,
absent from the source files.  Per the spec the opening name is the slug
with separators replaced by spaces. -/
def extract_opening_name (slug : String) : String :=
  slug.replace "-" " "

/-- Modelled from the spec: a word of the recognized delimiter set that
separates an opening family from its variation (the word "Variation" or a
numeric qualifier). -/
def isQualifierWord (w : String) : Bool :=
  w == "Variation" || (!w.isEmpty && w.data.all Char.isDigit)

/-- Modelled from the spec: `get_opening_family` lives in utils/udfs.py,
absent from the source files.  The family is the opening name truncated
before any Variation or numeric qualifier. -/
def get_opening_family (name : String) : String :=
  String.intercalate " " ((name.splitOn " ").takeWhile (fun w => !isQualifierWord w))

/-- Modelled from the spec: `get_opening_variation` lives in utils/udfs.py,
absent from the source files.  The variation is the remainder of the name
after the family, or empty when there is no split. -/
def get_opening_variation (name : String) : String :=
  String.intercalate " " ((name.splitOn " ").dropWhile (fun w => !isQualifierWord w))

/-- Modelled from the spec: `format_time_control` lives in utils/udfs.py,
absent from the source files.  Per the spec, a raw code "N" or "N+I" becomes
a minutes-based label, "N/M" (optionally with an increment) becomes a daily
label, the zero sentinel becomes "Unlimited", and unrecognized formats pass
through unchanged. -/
def format_time_control (tc : String) : String :=
  if tc = "0" ∨ tc = "" then "Unlimited"
  else
    match tc.splitOn "/" with
    | [single] =>
      match single.splitOn "+" with
      | [base] =>
        match base.toNat? with
        | some n => toString (n / 60) ++ " min"
        | none => tc
      | [base, inc] =>
        match base.toNat?, inc.toNat? with
        | some n, some i => toString (n / 60) ++ "+" ++ toString i
        | _, _ => tc
      | _ => tc
    | [_, per] =>
      match (per.splitOn "+").headD "" |>.toNat? with
      | some m => "Daily (" ++ toString (m / 86400) ++ " day per move)"
      | none => tc
    | _ => tc

/-- The columns of one silver-layer fact row that feed the dimension loads:
the opening URL and ECO code, the parsed game date, and the raw time
control with its time class. -/
structure SilverRow where
  pgn_eco_url : String := ""
  pgn_eco : String := ""
  game_date : YMD := ⟨2024, 1, 1⟩
  time_control : String := ""
  time_class : String := ""
deriving DecidableEq

/-- One row of gold/dim_openings.parquet. -/
structure DimOpeningsRow where
  pgn_eco_url : String := ""
  opening_name : String := ""
  opening_family : String := ""
  opening_variation : String := ""
  eco_code : String := ""
deriving DecidableEq

/-- One row of gold/dim_date.parquet. -/
structure DimDateRow where
  game_date : YMD := ⟨2024, 1, 1⟩
  year : Nat := 2024
  month : Nat := 1
  month_name : String := "January"
  day : Nat := 1
  weekday : String := ""
  quarter : Nat := 1
deriving DecidableEq

/-- One row of gold/dim_time_control.parquet. -/
structure DimTimeControlRow where
  time_control : String := ""
  time_class : String := ""
deriving DecidableEq

/-- One row of gold/dim_results.parquet. -/
structure DimResultsRow where
  result_code : String := ""
  result : String := ""
  description : String := ""
deriving DecidableEq

/-- The candidate openings projection of `load_dim_openings` (lines 257-262):
the opening columns are derived from pgn_eco_url by the opening UDFs, and
eco_code is taken from the source row. -/
def mkOpeningRow (s : SilverRow) : DimOpeningsRow :=
  let name := extract_opening_name s.pgn_eco_url
  { pgn_eco_url := s.pgn_eco_url
    opening_name := name
    opening_family := get_opening_family name
    opening_variation := get_opening_variation name
    eco_code := s.pgn_eco }

/-- The candidate date projection of `load_dim_date` (lines 328-338). -/
def mkDateRow (dt : YMD) : DimDateRow :=
  { game_date := dt
    year := dt.y
    month := dt.m
    month_name := monthName dt.m
    day := dt.d
    weekday := weekdayName dt
    quarter := quarterOf dt.m }

/-- The candidate time-control projection of `load_dim_time_control`
(line 405): the stored key is the formatted control. -/
def mkTimeControlRow (s : SilverRow) : DimTimeControlRow :=
  { time_control := format_time_control s.time_control
    time_class := s.time_class }

/-- The merge branch of `load_dim_openings` (lines 256-273): candidates from
the batch whose pgn_eco_url is NOT IN the snapshot keys, UNION the snapshot
(UNION removes duplicate rows). -/
def dimOpeningsMerge (existing : List DimOpeningsRow) (src : List SilverRow) :
    List DimOpeningsRow :=
  (((src.filter fun s =>
      !(existing.any fun e => decide (e.pgn_eco_url = s.pgn_eco_url))).map mkOpeningRow)
    ++ existing).dedup

/-- `load_dim_openings` (lines 221-293) at snapshot level: the argument
`file_exists` is the check_for_blob result; without a snapshot the distinct
candidate rows are written, otherwise the merge with the snapshot is. -/
def load_dim_openings (file_exists : Bool) (existing : List DimOpeningsRow)
    (src : List SilverRow) : List DimOpeningsRow :=
  if file_exists then dimOpeningsMerge existing src
  else (src.map mkOpeningRow).dedup

/-- The merge branch of `load_dim_date` (lines 326-348): candidate dates from
the batch whose game_date is NOT IN the snapshot keys, UNION the snapshot. -/
def dimDateMerge (existing : List DimDateRow) (src : List SilverRow) :
    List DimDateRow :=
  (((src.filter fun s =>
      !(existing.any fun e => decide (e.game_date = s.game_date))).map
        (fun s => mkDateRow s.game_date))
    ++ existing).dedup

/-- `load_dim_date` (lines 298-369) at snapshot level; the ORDER BY of the
first-run branch is dropped, this model keeping only row content. -/
def load_dim_date (file_exists : Bool) (existing : List DimDateRow)
    (src : List SilverRow) : List DimDateRow :=
  if file_exists then dimDateMerge existing src
  else ((src.map fun s => mkDateRow s.game_date).dedup)

/-- The merge branch of `load_dim_time_control` (lines 402-411).  The WHERE
clause compares the source column `time_control` — the RAW code, since the
column shadows the select alias of the same name — against the snapshot's
stored (formatted) keys. -/
def dimTimeControlMerge (existing : List DimTimeControlRow) (src : List SilverRow) :
    List DimTimeControlRow :=
  (((src.filter fun s =>
      !(existing.any fun e => decide (e.time_control = s.time_control))).map
        mkTimeControlRow)
    ++ existing).dedup

/-- `load_dim_time_control` (lines 372-421) at snapshot level.  Note the
first-run branch (lines 414-418) has no DISTINCT. -/
def load_dim_time_control (file_exists : Bool) (existing : List DimTimeControlRow)
    (src : List SilverRow) : List DimTimeControlRow :=
  if file_exists then dimTimeControlMerge existing src
  else src.map mkTimeControlRow

/-- The constant seed rows of `load_dim_results` (lines 454-486). -/
def seed_dim_results : List DimResultsRow :=
  [⟨"win", "Win", "Win"⟩,
   ⟨"checkmated", "Loss", "Checkmated"⟩,
   ⟨"agreed", "Draw", "Draw agreed"⟩,
   ⟨"repetition", "Draw", "Draw by repetition"⟩,
   ⟨"timeout", "Win", "Timeout"⟩,
   ⟨"resigned", "Loss", "Resigned"⟩,
   ⟨"stalemate", "Draw", "Stalemate"⟩,
   ⟨"lose", "Loss", "Lose"⟩,
   ⟨"insufficient", "Draw", "Insufficient material"⟩,
   ⟨"50move", "Draw", "Draw by 50-move rule"⟩,
   ⟨"abandoned", "Draw", "Abandoned"⟩,
   ⟨"kingofthehill", "Win", "Opponent king reached the hill"⟩,
   ⟨"threecheck", "Win", "Checked for the 3rd time"⟩,
   ⟨"timevsinsufficient", "Draw", "Draw by timeout vs insufficient material"⟩,
   ⟨"bughousepartnerlose", "Loss", "Bughouse partner lost"⟩]

/-- `load_dim_results` (lines 424-488) at snapshot level: when the snapshot
exists the function only reads it back — the upload call sits inside the
else branch — so the stored snapshot stays unchanged; nothing from the
current batch is consulted.  On first run the constant seed is written. -/
def load_dim_results (file_exists : Bool) (existing : List DimResultsRow) :
    List DimResultsRow :=
  if file_exists then existing else seed_dim_results

/-- Written from the spec's words (section 4.4): the new snapshot is the
existing rows UNION exactly those candidate rows whose natural key is not
already present in the existing rows.  Used to compare the code's dimension
merges against the specified rule. -/
def specDimMerge {α κ : Type} [DecidableEq α] [DecidableEq κ] (key : α → κ)
    (existing cands : List α) : List α :=
  ((cands.filter fun c => !(existing.any fun e => decide (key e = key c)))
    ++ existing).dedup

/-- One row of the fact query of `load_fact_table` (lines 533-564), with
dates on the YMD model, timestamps in seconds and the last_updated
timestamp as a number. -/
structure FactRow where
  game_url : String := ""
  game_date : YMD := ⟨2024, 1, 1⟩
  start_time : Nat := 0
  end_time : Nat := 0
  game_duration_secs : Int := 0
  time_control : String := ""
  my_color : String := ""
  my_username : String := ""
  opponent_username : String := ""
  my_rating : Nat := 0
  opponent_rating : Nat := 0
  my_result : String := ""
  opponent_result : String := ""
  game_fen : String := ""
  opening_url : String := ""
  game_pgn : String := ""
  moves : Nat := 0
  last_updated : Nat := 0
deriving DecidableEq

/-- SQL LEFT JOIN projected back onto the left columns (`SELECT fact.*`): a
left row with no match appears once, a left row with matches appears once
per matching dimension row; no left row is dropped. -/
def leftJoinKeepLeft {β : Type} (facts : List FactRow) (dim : List β)
    (p : FactRow → β → Bool) : List FactRow :=
  match facts with
  | [] => []
  | f :: rest =>
    (match dim.filter (p f) with
     | [] => [f]
     | m :: ms => (m :: ms).map (fun _ => f)) ++ leftJoinKeepLeft rest dim p

/-- The five-way left join of `load_fact_table` (lines 566-573): the batch
fact rows against dim_date on game_date, dim_openings on opening_url,
dim_results twice (my_result and opponent_result), and dim_time_control on
the formatted time_control, keeping only the fact columns. -/
def load_fact_join (fct : List FactRow) (dim_date : List DimDateRow)
    (dim_openings : List DimOpeningsRow) (dim_results : List DimResultsRow)
    (dim_time_control : List DimTimeControlRow) : List FactRow :=
  leftJoinKeepLeft
    (leftJoinKeepLeft
      (leftJoinKeepLeft
        (leftJoinKeepLeft
          (leftJoinKeepLeft fct dim_date (fun f d => decide (f.game_date = d.game_date)))
          dim_openings (fun f d => decide (f.opening_url = d.pgn_eco_url)))
        dim_results (fun f d => decide (f.my_result = d.result_code)))
      dim_results (fun f d => decide (f.opponent_result = d.result_code)))
    dim_time_control (fun f d => decide (f.time_control = d.time_control))

/-- Whether row `s` (at input position `j`) is ranked at or below row `r`
(at input position `i`) by the window ORDER BY last_updated DESC of
`load_fact_table` (line 588), restricted to the game_url partition; ties in
last_updated are broken by input position, making the unspecified SQL
tie-break deterministic in the model. -/
def beatsRow (i : Nat) (r : FactRow) (j : Nat) (s : FactRow) : Bool :=
  if s.game_url = r.game_url then
    if s.last_updated < r.last_updated then true
    else if s.last_updated = r.last_updated then decide (i ≤ j)
    else false
  else true

/-- The dedup of `load_fact_table` (lines 584-597): ROW_NUMBER() OVER
(PARTITION BY game_url ORDER BY last_updated DESC), keeping the rows with
row number 1 and dropping the rn column. -/
def dedupFact (rows : List FactRow) : List FactRow :=
  (rows.enum.filter (fun p => rows.enum.all (fun q => beatsRow p.1 p.2 q.1 q.2))).map
    (fun p => p.2)

/-- `load_fact_table` (lines 576-603) after the join: with a previous gold
snapshot the snapshot and the batch are combined with UNION ALL and deduped
per game_url; without one the batch is published as is (line 601). -/
def load_fact_table (file_exists : Bool) (prev fact_table : List FactRow) :
    List FactRow :=
  if file_exists then dedupFact (prev ++ fact_table) else fact_table

/-- A sample fact row with the earlier last_updated timestamp. -/
def sampleFactEarly : FactRow :=
  { game_url := "https://www.chess.com/game/live/1", last_updated := 1 }

/-- A sample fact row with the later last_updated timestamp. -/
def sampleFactLate : FactRow :=
  { game_url := "https://www.chess.com/game/live/1", last_updated := 2 }

/-- A sample silver-layer row. -/
def sampleSilver : SilverRow :=
  { pgn_eco_url := "https://www.chess.com/openings/Kings-Pawn-Opening"
    pgn_eco := "C20"
    game_date := ⟨2024, 5, 1⟩
    time_control := "300"
    time_class := "blitz" }

/-- C10: the fetch-and-load function returns the constant True for every
input (username, year, month) and every response, regardless of the status
code and of how many games were fetched — never the list of games its
docstring advertises. -/
theorem extract_and_load_always_returns_true (username : String) (year month : Nat)
    (response : ChessApiResponse) :
    (extract_and_load_chess_data username year month response).ret = true := rfl

/-- C4 counterexample: on a 403 response with games available upstream, the
function overwrites the bronze blob for the batch with an empty list and
returns True; no fetch failure is surfaced and the bronze write does
happen, contrary to the claim. -/
theorem fetch_non_2xx_overwrites_bronze_counterexample :
    (extract_and_load_chess_data "RhythmBear1" 2024 3 ⟨403, ["game1"]⟩).bronze_payload
        = some [] ∧
      (extract_and_load_chess_data "RhythmBear1" 2024 3 ⟨403, ["game1"]⟩).ret = true :=
  ⟨rfl, rfl⟩

/-- C4 amended: when the external fetch returns a non-2xx response, the run
does NOT fail: the response is treated as an empty game list, the bronze
blob for the (year, month) batch is overwritten with that empty list, and
the function returns True. -/
theorem fetch_non_2xx_treated_as_empty (username : String) (year month : Nat)
    (response : ChessApiResponse) (h : response.status_code ≠ 200) :
    (extract_and_load_chess_data username year month response).bronze_payload
        = some [] ∧
      (extract_and_load_chess_data username year month response).ret = true := by
  unfold extract_and_load_chess_data
  simp [h]

/-- Witness for the amended C4 at a concrete 403 response. -/
theorem fetch_non_2xx_treated_as_empty_witness :
    (ChessApiResponse.mk 403 ["game1"]).status_code ≠ 200 ∧
      ((extract_and_load_chess_data "RhythmBear1" 2024 3 ⟨403, ["game1"]⟩).bronze_payload
          = some [] ∧
        (extract_and_load_chess_data "RhythmBear1" 2024 3 ⟨403, ["game1"]⟩).ret = true) :=
  ⟨by decide, fetch_non_2xx_treated_as_empty "RhythmBear1" 2024 3 ⟨403, ["game1"]⟩ (by decide)⟩

/-- C6: the move-numbering transform on the token list [a, b, c, d, e]
produces "1. a b 2. c d 3. e". -/
theorem add_move_numbers_example :
    add_move_numbers ["a", "b", "c", "d", "e"] = "1. a b 2. c d 3. e" := rfl

/-- C8: timestamps are rebuilt independently from their own date and time
pair, so a game starting 23:58:00 on a date D and ending 00:03:00 on the
next calendar day has a computed duration of 300 seconds, not a negative
one. -/
theorem cross_midnight_duration_is_300 (d1 d2 : YMD)
    (h : daysFromCivil d2 = daysFromCivil d1 + 1) :
    gameDurationSecs d1 d2 (todSecs 23 58 0) (todSecs 0 3 0) = 300 := by
  unfold gameDurationSecs dateDiffSeconds combineDateTime todSecs
  rw [h]
  push_cast
  ring

/-- Witness for C8 across a year boundary: 2024-12-31 23:58:00 to
2025-01-01 00:03:00. -/
theorem cross_midnight_duration_is_300_witness :
    daysFromCivil ⟨2025, 1, 1⟩ = daysFromCivil ⟨2024, 12, 31⟩ + 1 ∧
      gameDurationSecs ⟨2024, 12, 31⟩ ⟨2025, 1, 1⟩ (todSecs 23 58 0) (todSecs 0 3 0)
        = 300 :=
  ⟨by decide, cross_midnight_duration_is_300 ⟨2024, 12, 31⟩ ⟨2025, 1, 1⟩ (by decide)⟩

/-- C2: on the first run (no previous gold snapshot) `load_fact_table`
publishes the joined batch unchanged, so a batch containing two rows with
the same game_url is published with both rows — the output does not have
exactly one row per distinct game_url. -/
theorem fact_first_run_duplicate_game_urls_survive :
    load_fact_table false [] [sampleFactEarly, sampleFactLate]
        = [sampleFactEarly, sampleFactLate] ∧
      sampleFactEarly.game_url = sampleFactLate.game_url ∧
      sampleFactEarly ≠ sampleFactLate := by
  decide

/-- C3 counterexample: with an existing snapshot, `load_dim_results` ignores
the current batch entirely, so a candidate result row whose key is absent
from the snapshot is in the specified merge output but not in the code's
output — the specified rule is not applied to the results dimension. -/
theorem dim_results_merge_ignores_batch_counterexample :
    (⟨"checkmated", "Loss", "Checkmated"⟩ : DimResultsRow) ∈
        specDimMerge (fun r => r.result_code)
          [⟨"win", "Win", "Win"⟩] [⟨"checkmated", "Loss", "Checkmated"⟩] ∧
      (⟨"checkmated", "Loss", "Checkmated"⟩ : DimResultsRow) ∉
        load_dim_results true [⟨"win", "Win", "Win"⟩] := by
  decide

/-- C9 counterexample: a notation blob with no Date tag makes the transform
raise (DuckDB STRPTIME fails on the empty extraction) instead of producing
a null game_date. -/
theorem missing_date_tag_raises_counterexample :
    transform_json_to_fact_row ("[Event \"Live Chess\"]").data
        = Except.error "Could not parse Date with format %Y/%m/%d" := rfl

/-- Helper for C9: where the pattern never occurs, the extraction returns
the empty string. -/
theorem regexpExtractFirst_eq_nil (pat s : List Char)
    (h : containsSub pat s = false) : regexpExtractFirst pat s = [] := by
  induction s with
  | nil => rfl
  | cons c rest ih =>
    rw [containsSub] at h
    rcases Bool.or_eq_false_iff.mp h with ⟨h1, h2⟩
    simp only [regexpExtractFirst, h1, Bool.false_eq_true, if_false]
    exact ih h2

/-- C9 amended: a missing bracket-tagged field yields the empty string from
REGEXP_EXTRACT without error, but for the strptime-parsed fields (here
Date) the empty extraction makes STRPTIME fail, aborting the transform
instead of producing a null. -/
theorem missing_tag_extraction_and_strptime (pat : List Char) (blob : Blob)
    (h1 : containsSub pat blob = false)
    (h2 : containsSub (tagPattern "Date") blob = false) :
    regexpExtractFirst pat blob = [] ∧
      transform_json_to_fact_row blob
        = Except.error "Could not parse Date with format %Y/%m/%d" := by
  refine ⟨regexpExtractFirst_eq_nil pat blob h1, ?_⟩
  have hd : extractTag "Date" blob = [] := regexpExtractFirst_eq_nil _ blob h2
  unfold transform_json_to_fact_row
  rw [hd]
  rfl

/-- Witness for the amended C9 on a blob carrying only a Site tag. -/
theorem missing_tag_extraction_and_strptime_witness :
    containsSub (tagPattern "ECO") ("[Site \"Chess.com\"]").data = false ∧
      containsSub (tagPattern "Date") ("[Site \"Chess.com\"]").data = false ∧
      (regexpExtractFirst (tagPattern "ECO") ("[Site \"Chess.com\"]").data = [] ∧
        transform_json_to_fact_row ("[Site \"Chess.com\"]").data
          = Except.error "Could not parse Date with format %Y/%m/%d") :=
  ⟨by decide, by decide,
    missing_tag_extraction_and_strptime (tagPattern "ECO") ("[Site \"Chess.com\"]").data
      (by decide) (by decide)⟩

/-- Helper for C7: a left join projected onto the left columns keeps every
left row. -/
theorem mem_leftJoinKeepLeft {β : Type} (facts : List FactRow) (dim : List β)
    (p : FactRow → β → Bool) (r : FactRow) (h : r ∈ facts) :
    r ∈ leftJoinKeepLeft facts dim p := by
  induction facts with
  | nil => cases h
  | cons f rest ih =>
    rcases List.mem_cons.mp h with h1 | h2
    · subst h1
      unfold leftJoinKeepLeft
      apply List.mem_append_left
      cases hm : dim.filter (p r) with
      | nil => simp
      | cons m ms => simp
    · unfold leftJoinKeepLeft
      exact List.mem_append_right _ (ih h2)

/-- C7: the five-way left join of the fact load never drops an input row —
every parsed fact row of the batch, matched or not by the dimension
snapshots, is present in the joined output. -/
theorem fact_join_never_drops_rows (fct : List FactRow) (dim_date : List DimDateRow)
    (dim_openings : List DimOpeningsRow) (dim_results : List DimResultsRow)
    (dim_time_control : List DimTimeControlRow) (r : FactRow) (h : r ∈ fct) :
    r ∈ load_fact_join fct dim_date dim_openings dim_results dim_time_control := by
  unfold load_fact_join
  exact mem_leftJoinKeepLeft _ _ _ _
    (mem_leftJoinKeepLeft _ _ _ _
      (mem_leftJoinKeepLeft _ _ _ _
        (mem_leftJoinKeepLeft _ _ _ _
          (mem_leftJoinKeepLeft _ _ _ _ h))))

/-- Witness for C7: a row with no dimension match anywhere survives the
join against empty dimension snapshots. -/
theorem fact_join_never_drops_rows_witness :
    sampleFactEarly ∈ [sampleFactEarly] ∧
      sampleFactEarly ∈ load_fact_join [sampleFactEarly] [] [] [] [] :=
  ⟨by decide,
    fact_join_never_drops_rows [sampleFactEarly] [] [] [] [] sampleFactEarly (by decide)⟩

/-- C1: merging a previous fact snapshot with a batch that shares a
game_url, with last_updated T1 < T2, keeps exactly the row carrying T2 —
whichever side of the union the newer row came from. -/
theorem fact_merge_keeps_latest_per_game_url (r1 r2 : FactRow)
    (hu : r1.game_url = r2.game_url) (hlt : r1.last_updated < r2.last_updated) :
    load_fact_table true [r1] [r2] = [r2] ∧ load_fact_table true [r2] [r1] = [r2] := by
  have hne : r2.last_updated ≠ r1.last_updated := (Nat.ne_of_lt hlt).symm
  have hnlt : ¬ r2.last_updated < r1.last_updated := Nat.lt_asymm hlt
  constructor <;>
    simp [load_fact_table, dedupFact, beatsRow, List.enum, List.enumFrom, hu, hlt,
      hne, hnlt]

/-- Witness for C1 with two concrete rows sharing a game_url. -/
theorem fact_merge_keeps_latest_per_game_url_witness :
    sampleFactEarly.game_url = sampleFactLate.game_url ∧
      sampleFactEarly.last_updated < sampleFactLate.last_updated ∧
      (load_fact_table true [sampleFactEarly] [sampleFactLate] = [sampleFactLate] ∧
        load_fact_table true [sampleFactLate] [sampleFactEarly] = [sampleFactLate]) :=
  ⟨rfl, by decide,
    fact_merge_keeps_latest_per_game_url sampleFactEarly sampleFactLate rfl (by decide)⟩

/-- C5: the dimension merge is idempotent — running the openings merge a
second time with the same candidate batch against the snapshot the first
run produced returns that snapshot unchanged. -/
theorem dim_openings_merge_idempotent (existing : List DimOpeningsRow)
    (src : List SilverRow) :
    load_dim_openings true (load_dim_openings true existing src) src
      = load_dim_openings true existing src := by
  show dimOpeningsMerge (dimOpeningsMerge existing src) src = dimOpeningsMerge existing src
  have hout : ∀ s ∈ src,
      ((dimOpeningsMerge existing src).any fun e =>
        decide (e.pgn_eco_url = s.pgn_eco_url)) = true := by
    intro s hs
    rw [List.any_eq_true]
    by_cases hex : (existing.any fun e => decide (e.pgn_eco_url = s.pgn_eco_url)) = true
    · rcases List.any_eq_true.mp hex with ⟨e, he, hkey⟩
      exact ⟨e, List.mem_dedup.mpr (List.mem_append_right _ he), hkey⟩
    · refine ⟨mkOpeningRow s, ?_, decide_eq_true rfl⟩
      refine List.mem_dedup.mpr (List.mem_append_left _ ?_)
      exact List.mem_map_of_mem _ (List.mem_filter.mpr ⟨hs, by simp [hex]⟩)
  have hfil : (src.filter fun s =>
      !((dimOpeningsMerge existing src).any fun e =>
          decide (e.pgn_eco_url = s.pgn_eco_url))) = [] := by
    rw [List.filter_eq_nil_iff]
    intro s hs
    simp [hout s hs]
  have hnd : (dimOpeningsMerge existing src).Nodup := by
    unfold dimOpeningsMerge
    exact List.nodup_dedup _
  show (((src.filter fun s =>
      !((dimOpeningsMerge existing src).any fun e =>
          decide (e.pgn_eco_url = s.pgn_eco_url))).map mkOpeningRow)
    ++ dimOpeningsMerge existing src).dedup = dimOpeningsMerge existing src
  rw [hfil]
  simp [List.dedup_eq_self.mpr hnd]

/-- Helper for C3: membership in a filter-then-union dimension merge agrees
with membership in the spec's existing-UNION-new-keys rule whenever the
filter tests the candidate's own key. -/
theorem mem_filtered_merge {α κ : Type} [DecidableEq α] [DecidableEq κ]
    (key : α → κ) (keyS : SilverRow → κ) (mk : SilverRow → α)
    (hkey : ∀ s, key (mk s) = keyS s)
    (existing : List α) (src : List SilverRow) (r : α) :
    (r ∈ (((src.filter fun s =>
        !(existing.any fun e => decide (key e = keyS s))).map mk) ++ existing).dedup) ↔
      r ∈ specDimMerge key existing (src.map mk) := by
  unfold specDimMerge
  simp only [List.mem_dedup, List.mem_append, List.mem_filter, List.mem_map]
  constructor
  · rintro (⟨s, ⟨hs, hc⟩, hmk⟩ | hex)
    · subst hmk
      refine Or.inl ⟨⟨s, hs, rfl⟩, ?_⟩
      simp only [hkey s]
      exact hc
    · exact Or.inr hex
  · rintro (⟨⟨s, hs, hmk⟩, hc⟩ | hex)
    · subst hmk
      refine Or.inl ⟨s, ⟨hs, ?_⟩, rfl⟩
      simp only [hkey s] at hc
      exact hc
    · exact Or.inr hex

/-- C3 amended: with an existing snapshot, the openings and date loads
produce exactly the rows of the spec's existing-UNION-new-keys rule; the
time-control load does too, but only on batches where testing the RAW code
against the stored keys agrees with testing the formatted key (its WHERE
clause compares the raw column against formatted keys); the results load
ignores the batch entirely and returns the snapshot unchanged. -/
theorem dim_merge_matches_spec_union_amended
    (exO : List DimOpeningsRow) (exD : List DimDateRow) (exT : List DimTimeControlRow)
    (exR : List DimResultsRow) (src : List SilverRow)
    (ro : DimOpeningsRow) (rd : DimDateRow) (rt : DimTimeControlRow)
    (hT : ∀ s ∈ src,
      (exT.any fun e => decide (e.time_control = format_time_control s.time_control))
        = (exT.any fun e => decide (e.time_control = s.time_control))) :
    (ro ∈ load_dim_openings true exO src ↔
        ro ∈ specDimMerge (fun r => r.pgn_eco_url) exO (src.map mkOpeningRow)) ∧
      (rd ∈ load_dim_date true exD src ↔
        rd ∈ specDimMerge (fun r => r.game_date) exD
          (src.map fun s => mkDateRow s.game_date)) ∧
      (rt ∈ load_dim_time_control true exT src ↔
        rt ∈ specDimMerge (fun r => r.time_control) exT (src.map mkTimeControlRow)) ∧
      load_dim_results true exR = exR := by
  refine ⟨?_, ?_, ?_, rfl⟩
  · exact mem_filtered_merge (fun r => r.pgn_eco_url) (fun s => s.pgn_eco_url)
      mkOpeningRow (fun s => rfl) exO src ro
  · exact mem_filtered_merge (fun r => r.game_date) (fun s => s.game_date)
      (fun s => mkDateRow s.game_date) (fun s => rfl) exD src rd
  · have hf : (src.filter fun s =>
        !(exT.any fun e => decide (e.time_control = s.time_control)))
        = (src.filter fun s =>
        !(exT.any fun e => decide (e.time_control = format_time_control s.time_control))) := by
      apply List.filter_congr
      intro s hs
      rw [hT s hs]
    have hrw : load_dim_time_control true exT src
        = (((src.filter fun s =>
            !(exT.any fun e =>
              decide (e.time_control = format_time_control s.time_control))).map
              mkTimeControlRow) ++ exT).dedup := by
      show dimTimeControlMerge exT src = _
      unfold dimTimeControlMerge
      rw [hf]
    rw [hrw]
    exact mem_filtered_merge (fun r => r.time_control)
      (fun s => format_time_control s.time_control) mkTimeControlRow
      (fun s => rfl) exT src rt

/-- Witness for the amended C3 on a one-row batch against empty snapshots. -/
theorem dim_merge_matches_spec_union_amended_witness :
    (∀ s ∈ [sampleSilver],
      (([] : List DimTimeControlRow).any fun e =>
          decide (e.time_control = format_time_control s.time_control))
        = (([] : List DimTimeControlRow).any fun e =>
          decide (e.time_control = s.time_control))) ∧
      ((mkOpeningRow sampleSilver ∈ load_dim_openings true [] [sampleSilver] ↔
          mkOpeningRow sampleSilver ∈ specDimMerge (fun r => r.pgn_eco_url) []
            ([sampleSilver].map mkOpeningRow)) ∧
        (mkDateRow sampleSilver.game_date ∈ load_dim_date true [] [sampleSilver] ↔
          mkDateRow sampleSilver.game_date ∈ specDimMerge (fun r => r.game_date) []
            ([sampleSilver].map fun s => mkDateRow s.game_date)) ∧
        (mkTimeControlRow sampleSilver ∈ load_dim_time_control true [] [sampleSilver] ↔
          mkTimeControlRow sampleSilver ∈ specDimMerge (fun r => r.time_control) []
            ([sampleSilver].map mkTimeControlRow)) ∧
        load_dim_results true seed_dim_results = seed_dim_results) :=
  ⟨by decide,
    dim_merge_matches_spec_union_amended [] [] [] seed_dim_results [sampleSilver]
      (mkOpeningRow sampleSilver) (mkDateRow sampleSilver.game_date)
      (mkTimeControlRow sampleSilver) (by decide)⟩
